import Mathlib

/-!
Verification of the broker-buddy session-lifecycle and order-reconciliation
engine (`src/service/angel_one_service.py`, `src/service/coinbase_service.py`,
`src/dtos/order_params_dto.py`, `src/dtos/crypto_order_dto.py`).

The Python code is shallowly embedded: Python runtime values that flow through
the service are modelled by `PyVal`; provider calls are modelled by response
scripts (functions from call index to response); a raised exception that the
source catches is an explicit `Except` error; the recursive session-expiry
retry is modelled with a fuel parameter (running out of fuel corresponds to
the recursion not terminating within that depth).
-/

namespace BrokerBuddy

/-- A Python runtime value as it flows through the service layer.
`pnone` is `None`; `penum cls nm` is a member of a plain `enum.Enum`
subclass (equal only to itself, in particular never equal to a string,
mirroring `Enum.__eq__`); `pdict` keeps the key/value pairs in insertion
order. `pfloat` carries an exact rational standing for a Python float. -/
inductive PyVal where
  | pnone : PyVal
  | pbool : Bool → PyVal
  | pint : Int → PyVal
  | pfloat : Rat → PyVal
  | pstr : String → PyVal
  | penum : String → String → PyVal
  | plist : List PyVal → PyVal
  | pdict : List (String × PyVal) → PyVal

mutual

/-- Python `==` on the embedded values. Structural: two values are equal when
they have the same shape and contents. (Python's cross-type numeric equality
and order-insensitive dict equality never matter here: the service only
compares identifiers, codes and enum members.) An enum member equals only the
same member of the same class — `Exchange.NSE == "NSE"` is `False`. -/
def pyEq : PyVal → PyVal → Bool
  | PyVal.pnone, PyVal.pnone => true
  | PyVal.pbool a, PyVal.pbool b => a == b
  | PyVal.pint a, PyVal.pint b => a == b
  | PyVal.pfloat a, PyVal.pfloat b => a == b
  | PyVal.pstr a, PyVal.pstr b => a == b
  | PyVal.penum c1 n1, PyVal.penum c2 n2 => c1 == c2 && n1 == n2
  | PyVal.plist xs, PyVal.plist ys => pyEqList xs ys
  | PyVal.pdict xs, PyVal.pdict ys => pyEqDict xs ys
  | _, _ => false

/-- Elementwise `pyEq` on lists. -/
def pyEqList : List PyVal → List PyVal → Bool
  | [], [] => true
  | a :: as, b :: bs => pyEq a b && pyEqList as bs
  | _, _ => false

/-- Pairwise `pyEq` on dict bodies. -/
def pyEqDict : List (String × PyVal) → List (String × PyVal) → Bool
  | [], [] => true
  | (k1, v1) :: as, (k2, v2) :: bs => k1 == k2 && pyEq v1 v2 && pyEqDict as bs
  | _, _ => false

end

/-- Python truthiness (`bool(v)`): `None` and `False` are falsy, numbers are
falsy at zero, strings and containers are falsy when empty; enum members are
truthy. -/
def truthy : PyVal → Bool
  | PyVal.pnone => false
  | PyVal.pbool b => b
  | PyVal.pint n => n != 0
  | PyVal.pfloat q => q != 0
  | PyVal.pstr s => s != ""
  | PyVal.penum _ _ => true
  | PyVal.plist xs => !xs.isEmpty
  | PyVal.pdict kvs => !kvs.isEmpty

/-- Python `d.get(k)` on a dict body: the first binding of `k`, else `None`. -/
def pyDictGet (kvs : List (String × PyVal)) (k : String) : PyVal :=
  match kvs.find? (fun kv => kv.1 == k) with
  | some kv => kv.2
  | none => PyVal.pnone

/-- Python `d.get(k, dflt)`: the first binding of `k`, else the default. -/
def pyDictGetD (kvs : List (String × PyVal)) (k : String) (dflt : PyVal) : PyVal :=
  match kvs.find? (fun kv => kv.1 == k) with
  | some kv => kv.2
  | none => dflt

/-- Python `a or b`: `a` when truthy, else `b`. -/
def pyOr (a b : PyVal) : PyVal :=
  if truthy a then a else b

/-- Python `str(v)` for the scalar values the service passes through `str`.
Containers, floats and enum members get a fixed abstract rendering (the
source only applies `str` to identifiers, which are strings or integers). -/
def pyStr : PyVal → String
  | PyVal.pnone => "None"
  | PyVal.pbool b => if b then "True" else "False"
  | PyVal.pint n => toString n
  | PyVal.pfloat q => toString q
  | PyVal.pstr s => s
  | PyVal.penum cls nm => cls ++ "." ++ nm
  | PyVal.plist _ => "[...]"
  | PyVal.pdict _ => "{...}"

/-- Does the character list start with the given pattern? -/
def listStartsWith : List Char → List Char → Bool
  | [], _ => true
  | _ :: _, [] => false
  | a :: as, b :: bs => a == b && listStartsWith as bs

/-- Does the character list contain the pattern as a contiguous run? -/
def listContainsSeq (nd : List Char) : List Char → Bool
  | [] => nd.isEmpty
  | c :: cs => listStartsWith nd (c :: cs) || listContainsSeq nd cs

/-- Python `needle in hay` on strings. -/
def strContainsSub (hay nd : String) : Bool :=
  listContainsSeq nd.toList hay.toList

/-- Python `s.strip()`: drop whitespace from both ends. -/
def pyStrip (s : String) : String :=
  String.mk
    (((s.toList.dropWhile Char.isWhitespace).reverse.dropWhile
        Char.isWhitespace).reverse)

/-- Python `s.endswith(sfx)`. -/
def strEndsWith (s sfx : String) : Bool :=
  listStartsWith sfx.toList.reverse s.toList.reverse

/-!  ## Session lifetime (`_next_reset_after`, `_session_valid`)

Timestamps are seconds of IST wall-clock time counted from an (arbitrary)
midnight; IST has no daylight-saving shifts, so `datetime.replace` and
`timedelta` arithmetic on aware IST datetimes is plain arithmetic on this
axis. The granularity (seconds rather than microseconds) is immaterial to
the statements proved below.  -/

/-- Seconds in one day. -/
def secondsPerDay : Nat := 86400

/-- Python `t.replace(hour=5, minute=0, second=0, microsecond=0)`:
05:00 on the day containing `t`. -/
def fiveAmOn (t : Nat) : Nat :=
  (t / secondsPerDay) * secondsPerDay + 5 * 3600

/-- The source's `_next_reset_after(t)`: SmartAPI tokens reset at 05:00 IST daily; the
next such boundary after `t` (`five_am_today if t < five_am_today else
five_am_today + timedelta(days=1)`). -/
def nextResetAfter (t : Nat) : Nat :=
  if t < fiveAmOn t then fiveAmOn t else fiveAmOn t + secondsPerDay

/-- The module-level `_session` cache: `{"access_token": ..., "login_time": ...}`.
The token is any Python value (`None` before first login); the login time is
a timestamp or `None`. -/
structure Session where
  access_token : PyVal
  login_time : Option Nat

/-- The check `_session_valid()` at current time `now`: false when the token or the
login time is falsy/absent, else `now < _next_reset_after(login_time)`.
(A Python `datetime` is always truthy, so the `login_time` check is just
presence.) -/
def sessionValid (s : Session) (now : Nat) : Bool :=
  match s.login_time with
  | none => false
  | some lt => truthy s.access_token && decide (now < nextResetAfter lt)

/-!  ## Order-status reconciliation (`_retrieve_order_status_from_smartapi`)

The two provider endpoints are given as scripts: `ds i` / `obs i` is what the
`i`-th call of `individual_order_details` / `orderBook()` does — `.error msg`
for a raised exception (with `str(exc) = msg`), `.ok v` for a returned value.
`time.sleep` is modelled by counting the sleeps performed.  -/

/-- Ids pulled from the placement response:
`data_block = order_resp.get("data") or {}` then
`data_block.get("uniqueorderid")` / `.get("orderid")`, the whole block inside
`try/except` (a non-dict receiver raises, leaving both ids `None`). -/
def extractIds (order_resp : PyVal) : PyVal × PyVal :=
  match order_resp with
  | PyVal.pdict kvs =>
      match pyOr (pyDictGet kvs "data") (PyVal.pdict []) with
      | PyVal.pdict dk => (pyDictGet dk "uniqueorderid", pyDictGet dk "orderid")
      | _ => (PyVal.pnone, PyVal.pnone)
  | _ => (PyVal.pnone, PyVal.pnone)

/-- The detail branch of one attempt: when `unique_order_id` is truthy, call
`individual_order_details`; a raised exception leaves `details_resp = None`;
a dict response with `status is True` and truthy `data` breaks with that
data, else a truthy `data` alone also breaks with it; anything else yields
no hit. -/
def detailHit (uid : PyVal) (r : Except String PyVal) : Option PyVal :=
  if truthy uid then
    match r with
    | Except.error _ => none
    | Except.ok (PyVal.pdict kvs) =>
        if pyEq (pyDictGet kvs "status") (PyVal.pbool true)
            && truthy (pyDictGet kvs "data") then
          some (pyDictGet kvs "data")
        else if truthy (pyDictGet kvs "data") then
          some (pyDictGet kvs "data")
        else none
    | Except.ok _ => none
  else none

/-- State of `last_error_message` after the detail branch: `str(exc)` on a raised
exception; on a dict response that did not break,
`details_resp.get("message") or last_error_message`. -/
def detailErrUpd (uid : PyVal) (r : Except String PyVal) (lastErr : PyVal) : PyVal :=
  if truthy uid then
    match r with
    | Except.error e => PyVal.pstr e
    | Except.ok (PyVal.pdict kvs) =>
        if truthy (pyDictGet kvs "data") then lastErr
        else pyOr (pyDictGet kvs "message") lastErr
    | Except.ok _ => lastErr
  else lastErr

/-- The list `ob_resp.get("data") or []` as the list the order-book scan
iterates. The provider returns the order list here; a falsy value yields
`[]`; a truthy non-list (whose elements would all fail the per-item guard,
strings and dicts iterating to characters and keys) contributes no match
and is embedded as the empty scan. -/
def ordersOf : PyVal → List PyVal
  | PyVal.plist xs => xs
  | _ => []

/-- One order-book entry against the placement ids:
`unique_order_id and item.get("uniqueorderid") == unique_order_id`, else
`order_id and str(item.get("orderid")) == str(order_id)`; the per-item
`try/except Exception: continue` makes a non-dict item no match. -/
def itemMatches (uid oid : PyVal) (item : PyVal) : Bool :=
  match item with
  | PyVal.pdict kvs =>
      (truthy uid && pyEq (pyDictGet kvs "uniqueorderid") uid)
        || (truthy oid && (pyStr (pyDictGet kvs "orderid") == pyStr oid))
  | _ => false

/-- The order-book branch of one attempt: a raised exception leaves
`ob_resp = None`; on a dict with `status is True`, scan
`ob_resp.get("data") or []` for the first matching entry. -/
def obHit (uid oid : PyVal) (r : Except String PyVal) : Option PyVal :=
  match r with
  | Except.error _ => none
  | Except.ok (PyVal.pdict kvs) =>
      if pyEq (pyDictGet kvs "status") (PyVal.pbool true) then
        (ordersOf (pyDictGet kvs "data")).find? (itemMatches uid oid)
      else none
  | Except.ok _ => none

/-- State of `last_error_message` after the order-book branch: `str(exc)` on a raised
exception, unchanged otherwise. -/
def obErrUpd (r : Except String PyVal) (lastErr : PyVal) : PyVal :=
  match r with
  | Except.error e => PyVal.pstr e
  | Except.ok _ => lastErr

/-- The `for _ in range(max_attempts)` loop body: detail branch first, then
the order-book fallback; either hit `break`s at once, otherwise
`time.sleep(sleep_seconds)` and the next attempt. Returns
(`order_status_details`, `last_error_message`, number of sleeps performed). -/
def reconLoop (ds obs : Nat → Except String PyVal) (uid oid : PyVal) :
    Nat → Nat → PyVal → Nat → PyVal × PyVal × Nat
  | 0, _, lastErr, sleeps => (PyVal.pnone, lastErr, sleeps)
  | n + 1, i, lastErr, sleeps =>
      match detailHit uid (ds i) with
      | some d => (d, detailErrUpd uid (ds i) lastErr, sleeps)
      | none =>
          let le1 := detailErrUpd uid (ds i) lastErr
          match obHit uid oid (obs i) with
          | some m => (m, obErrUpd (obs i) le1, sleeps)
          | none => reconLoop ds obs uid oid n (i + 1) (obErrUpd (obs i) le1) (sleeps + 1)

/-- What `_retrieve_order_status_from_smartapi` returns, plus the number of
`time.sleep` calls it made (instrumentation; the source sleeps a fixed
0.6 s each time). -/
structure ReconOutcome where
  order_status : PyVal
  order_status_details : PyVal
  sleeps : Nat

/-- The final `order_status`: `order_status_details.get("orderstatus")` when
the details are a dict, else `None`. -/
def statusFrom : PyVal → PyVal
  | PyVal.pdict kvs => pyDictGet kvs "orderstatus"
  | _ => PyVal.pnone

/-- The helper `_retrieve_order_status_from_smartapi(smart, order_resp, max_attempts)`:
extract the ids, run the bounded polling loop, and derive `order_status`
from whatever details were found. -/
def retrieveOrderStatus (ds obs : Nat → Except String PyVal)
    (order_resp : PyVal) (maxAttempts : Nat) : ReconOutcome :=
  let ids := extractIds order_resp
  let r := reconLoop ds obs ids.1 ids.2 maxAttempts 0 PyVal.pnone 0
  { order_status := statusFrom r.1
    order_status_details := r.1
    sleeps := r.2.2 }

/-!  ## Response normalization (`final_order_resp`)  -/

/-- The caller-facing record: exactly the three keys the service puts in
`final_order_resp`. -/
structure FinalOrderResponse where
  order_id : PyVal
  order_status : PyVal
  order_status_details : PyVal

/-- The dict `{"order_id": (order_resp.get("data") or {}).get("orderid"),
"order_status": order_status, "order_status_details": order_status_details}`.
At this point in the flow `order_resp` is a dict (its `.get("status")` was
read without a guard just before), so it is taken as a dict body; the
provider's `data` member is a mapping when present. -/
def normalize (order_resp : List (String × PyVal)) (st det : PyVal) :
    FinalOrderResponse :=
  { order_id :=
      match pyOr (pyDictGet order_resp "data") (PyVal.pdict []) with
      | PyVal.pdict dk => pyDictGet dk "orderid"
      | _ => PyVal.pnone
    order_status := st
    order_status_details := det }

/-!  ## Symbol resolution tie-breaks (`searchScrip` result scanning)  -/

/-- The preferred predicate of `buy_delivery_trade`:
`item.get("exchange") == exchange and
str(item.get("tradingsymbol", "")).endswith("-EQ")`; a non-dict item raises
into the per-item `except` and is skipped. Here `exchange` is the Python
value of the local variable (the string `"NSE"` at this call site). -/
def eqSuffixPred (exchange : PyVal) (item : PyVal) : Bool :=
  match item with
  | PyVal.pdict kvs =>
      pyEq (pyDictGet kvs "exchange") exchange
        && strEndsWith (pyStr (pyDictGetD kvs "tradingsymbol" (PyVal.pstr ""))) "-EQ"
  | _ => false

/-- The scan of `buy_delivery_trade`: first result satisfying the preferred
predicate, else (`if chosen is None`) the first result. -/
def chooseScrip (exchange : PyVal) (results : List PyVal) : Option PyVal :=
  match results.find? (eqSuffixPred exchange) with
  | some item => some item
  | none => results.head?

/-- The preferred predicate of `buy_delivery_trade_with_order_params`:
`item.get("exchange") == exchange and
str(item.get("tradingsymbol", "")) == order.tradingsymbol`, where `exchange`
is the Python value of `order.exchange` (a `Exchange` enum member). -/
def exactScripPred (exchange : PyVal) (tsym : String) (item : PyVal) : Bool :=
  match item with
  | PyVal.pdict kvs =>
      pyEq (pyDictGet kvs "exchange") exchange
        && (pyStr (pyDictGetD kvs "tradingsymbol" (PyVal.pstr "")) == tsym)
  | _ => false

/-- The scan of `buy_delivery_trade_with_order_params`: first result
satisfying the exact predicate, else the first result. -/
def chooseScripExact (exchange : PyVal) (tsym : String) (results : List PyVal) :
    Option PyVal :=
  match results.find? (exactScripPred exchange tsym) with
  | some item => some item
  | none => results.head?

/-!  ## The order DTO (`dtos/order_params_dto.py`)

Each Python `enum.Enum` subclass is an inductive; its members embed into
`PyVal.penum`, which is never `pyEq` to any string — exactly `Enum.__eq__`.  -/

inductive TransactionType where
  | BUY | SELL

def TransactionType.toPy : TransactionType → PyVal
  | BUY => PyVal.penum "TransactionType" "BUY"
  | SELL => PyVal.penum "TransactionType" "SELL"

inductive Variety where
  | NORMAL | STOPLOSS | AMO | ROBO

def Variety.toPy : Variety → PyVal
  | NORMAL => PyVal.penum "Variety" "NORMAL"
  | STOPLOSS => PyVal.penum "Variety" "STOPLOSS"
  | AMO => PyVal.penum "Variety" "AMO"
  | ROBO => PyVal.penum "Variety" "ROBO"

inductive Exchange where
  | NSE | BSE | NFO | MCX

def Exchange.toPy : Exchange → PyVal
  | NSE => PyVal.penum "Exchange" "NSE"
  | BSE => PyVal.penum "Exchange" "BSE"
  | NFO => PyVal.penum "Exchange" "NFO"
  | MCX => PyVal.penum "Exchange" "MCX"

inductive OrderType where
  | MARKET | LIMIT | STOPLOSS_LIMIT | STOPLOSS_MARKET

def OrderType.toPy : OrderType → PyVal
  | MARKET => PyVal.penum "OrderType" "MARKET"
  | LIMIT => PyVal.penum "OrderType" "LIMIT"
  | STOPLOSS_LIMIT => PyVal.penum "OrderType" "STOPLOSS_LIMIT"
  | STOPLOSS_MARKET => PyVal.penum "OrderType" "STOPLOSS_MARKET"

inductive ProductType where
  | DELIVERY | INTRADAY | MARGIN | CARRYFORWARD | BO

def ProductType.toPy : ProductType → PyVal
  | DELIVERY => PyVal.penum "ProductType" "DELIVERY"
  | INTRADAY => PyVal.penum "ProductType" "INTRADAY"
  | MARGIN => PyVal.penum "ProductType" "MARGIN"
  | CARRYFORWARD => PyVal.penum "ProductType" "CARRYFORWARD"
  | BO => PyVal.penum "ProductType" "BO"

inductive OrderDuration where
  | DAY | IOC

def OrderDuration.toPy : OrderDuration → PyVal
  | DAY => PyVal.penum "Duration" "DAY"
  | IOC => PyVal.penum "Duration" "IOC"

/-- The model `DeliveryTradeParams` (the `BuyDeliveryOrderParams` the service
annotates with): pydantic keeps enum members as field values
(no `use_enum_values`); `price` is `Optional[float]` with default `None`;
`quantity` is an `int` constrained by `ge=1` at validation. -/
structure DeliveryTradeParams where
  variety : Variety
  tradingsymbol : String
  symboltoken : Option String
  transactiontype : TransactionType
  exchange : Exchange
  ordertype : OrderType
  producttype : ProductType
  duration : OrderDuration
  price : Option Rat
  squareoff : String
  stoploss : String
  quantity : Int

/-- The only field constraint pydantic checks on `DeliveryTradeParams`:
`quantity >= 1`. In particular no validator relates `price` to
`ordertype`. -/
def deliveryParamsAccepted (p : DeliveryTradeParams) : Bool :=
  decide (1 ≤ p.quantity)

/-- The Python value of an `Optional[float]` field. -/
def optFloatToPy : Option Rat → PyVal
  | none => PyVal.pnone
  | some q => PyVal.pfloat q

/-!  ## The submit state machine (`buy_delivery_trade`,
`buy_delivery_trade_with_order_params`)

Provider calls are scripts indexed by how many calls of that kind were made
so far. The wall clock is frozen at `now` for the duration of one submit
call (the source reads `datetime.now` twice within milliseconds). The
source's retry-on-expiry is literal recursion with no counter; the `fuel`
argument bounds the modelled recursion depth, and `recursionOverflow` marks
a run that was still recursing when the fuel ran out.  -/

/-- The session-expiry test the service applies to `searchScrip` and
`placeOrderFullResponse` responses: `isinstance(resp, dict) and
(resp.get("code") in (401, "AG8001") or "Session" in
str(resp.get("message", "")))`. -/
def isExpirySignal (resp : PyVal) : Bool :=
  match resp with
  | PyVal.pdict kvs =>
      pyEq (pyDictGet kvs "code") (PyVal.pint 401)
        || pyEq (pyDictGet kvs "code") (PyVal.pstr "AG8001")
        || strContainsSub (pyStr (pyDictGetD kvs "message" (PyVal.pstr ""))) "Session"
  | _ => false

/-- The login block: `data = smart.generateSession(...)`;
`if not data or not data.get("status"): raise RuntimeError("login failed")`;
then `_session["access_token"] = data["data"]["jwtToken"]` (subscripting
raises on a missing key or a non-dict) and
`_session["login_time"] = datetime.now(IST)`. -/
def authStep (resp : PyVal) (now : Nat) : Except String Session :=
  if !(truthy resp) then Except.error "login failed"
  else
    match resp with
    | PyVal.pdict kvs =>
        if !(truthy (pyDictGet kvs "status")) then Except.error "login failed"
        else
          match kvs.find? (fun kv => kv.1 == "data") with
          | none => Except.error "KeyError: data"
          | some kv =>
              match kv.2 with
              | PyVal.pdict dk =>
                  match dk.find? (fun kv2 => kv2.1 == "jwtToken") with
                  | none => Except.error "KeyError: jwtToken"
                  | some kv2 =>
                      Except.ok { access_token := kv2.2, login_time := some now }
              | _ => Except.error "TypeError: subscripting a non-dict"
    | _ => Except.error "AttributeError: get on a non-dict"

/-- The per-run mutable state: the module-level `_session` cache plus call
counters for each provider endpoint and the payloads handed to
`placeOrderFullResponse` (in order). -/
structure TradeState where
  session : Session
  nAuth : Nat
  nSearch : Nat
  nPlace : Nat
  placed : List (List (String × PyVal))

/-- The provider, as response scripts per endpoint: the `i`-th
`generateSession` / `searchScrip` / `placeOrderFullResponse` call returns
the given value; the reconciler's two endpoints may also raise. -/
structure SubmitEnv where
  genSession : Nat → PyVal
  searchScrip : Nat → PyVal
  placeOrder : Nat → PyVal
  details : Nat → Except String PyVal
  orderBook : Nat → Except String PyVal

/-- How one submit call ends: a returned `final_order_resp`, a raised
`RuntimeError`, or still recursing when the modelled depth ran out. -/
inductive TradeOutcome where
  | ok (r : FinalOrderResponse)
  | err (msg : String)
  | recursionOverflow

/-- Step 1 of both submit paths: reuse a valid cached session, else log in
via `generateSession` and cache the fresh token. -/
def ensureSession (env : SubmitEnv) (now : Nat) (st : TradeState) :
    Except String TradeState :=
  if sessionValid st.session now then Except.ok st
  else
    let resp := env.genSession st.nAuth
    let st1 := { st with nAuth := st.nAuth + 1 }
    match authStep resp now with
    | Except.error e => Except.error e
    | Except.ok s => Except.ok { st1 with session := s }

/-- The assignment `_session["access_token"] = None` (the reactive invalidation before the
recursive retry). -/
def invalidateSession (st : TradeState) : TradeState :=
  { st with session := { st.session with access_token := PyVal.pnone } }

/-- The function `buy_delivery_trade(secret, share_name, share_quantity_to_buy)`.
`qty` is the `float` argument as an exact rational; a fractional or
non-positive value fails the whole-number validation as in the source. -/
def buyDeliveryTrade (env : SubmitEnv) (now : Nat) (shareName : String)
    (qty : Rat) : Nat → TradeState → TradeOutcome × TradeState
  | 0, st => (TradeOutcome.recursionOverflow, st)
  | fuel + 1, st =>
      if pyStrip shareName == "" then
        (TradeOutcome.err "share_name must be a non-empty string", st)
      else if qty ≤ 0 then
        (TradeOutcome.err "share_quantity_to_buy must be >= 1", st)
      else if qty.den ≠ 1 then
        (TradeOutcome.err "share_quantity_to_buy must be a whole number of shares", st)
      else
        match ensureSession env now st with
        | Except.error e => (TradeOutcome.err e, st)
        | Except.ok st1 =>
            let sresp := env.searchScrip st1.nSearch
            let st2 := { st1 with nSearch := st1.nSearch + 1 }
            if isExpirySignal sresp then
              buyDeliveryTrade env now shareName qty fuel (invalidateSession st2)
            else
              match sresp with
              | PyVal.pdict skvs =>
                  if !(truthy (pyDictGet skvs "status")) then
                    (TradeOutcome.err "searchScrip() failed", st2)
                  else
                    match ordersOf (pyOr (pyDictGet skvs "data") (PyVal.plist [])) with
                    | [] =>
                        (TradeOutcome.err "No matching scrip found for the provided share_name", st2)
                    | r0 :: rs =>
                        let chosen := (chooseScrip (PyVal.pstr "NSE") (r0 :: rs)).getD r0
                        match chosen with
                        | PyVal.pdict ckvs =>
                            let tsym := pyDictGet ckvs "tradingsymbol"
                            let tok := pyDictGet ckvs "symboltoken"
                            if !(truthy tsym) || !(truthy tok) then
                              (TradeOutcome.err "searchScrip() returned invalid symbol data", st2)
                            else
                              let payload : List (String × PyVal) :=
                                [("variety", PyVal.pstr "NORMAL"),
                                 ("tradingsymbol", tsym),
                                 ("symboltoken", PyVal.pstr (pyStr tok)),
                                 ("transactiontype", PyVal.pstr "BUY"),
                                 ("exchange", PyVal.pstr "NSE"),
                                 ("ordertype", PyVal.pstr "MARKET"),
                                 ("producttype", PyVal.pstr "DELIVERY"),
                                 ("duration", PyVal.pstr "DAY"),
                                 ("price", PyVal.pnone),
                                 ("squareoff", PyVal.pstr "0"),
                                 ("stoploss", PyVal.pstr "0"),
                                 ("quantity", PyVal.pstr (toString qty.num))]
                              let presp := env.placeOrder st2.nPlace
                              let st3 := { st2 with nPlace := st2.nPlace + 1,
                                                    placed := st2.placed ++ [payload] }
                              if isExpirySignal presp then
                                buyDeliveryTrade env now shareName qty fuel
                                  (invalidateSession st3)
                              else
                                match presp with
                                | PyVal.pdict pkvs =>
                                    if pyEq (pyDictGet pkvs "status") (PyVal.pbool false)
                                        || !(pyEq (pyDictGet pkvs "error") PyVal.pnone) then
                                      (TradeOutcome.err "buy_delivery_trade failed", st3)
                                    else
                                      let rcn := retrieveOrderStatus env.details env.orderBook presp 5
                                      (TradeOutcome.ok
                                        (normalize pkvs rcn.order_status rcn.order_status_details), st3)
                                | _ =>
                                    (TradeOutcome.err "AttributeError: get on a non-dict", st3)
                        | _ =>
                            (TradeOutcome.err "AttributeError: get on a non-dict", st2)
              | _ =>
                  (TradeOutcome.err "searchScrip() failed", st2)

/-- How step 2 of `buy_delivery_trade_with_order_params` (symboltoken
resolution) ends: a token to use, a raised error, or a session-expiry
signal that invalidates and retries the whole submit. -/
inductive ResolveStep where
  | done (tok : PyVal) (st : TradeState)
  | fail (msg : String) (st : TradeState)
  | retry (st : TradeState)

/-- Step 2 of `buy_delivery_trade_with_order_params`: keep a truthy
`order.symboltoken`, else resolve it via `searchScrip(order.exchange,
order.tradingsymbol)` with the exact-symbol scan and `results[0]`
fallback. -/
def resolveSymbolToken (env : SubmitEnv) (order : DeliveryTradeParams)
    (st : TradeState) : ResolveStep :=
  let given : PyVal :=
    match order.symboltoken with
    | none => PyVal.pnone
    | some s => PyVal.pstr s
  if truthy given then ResolveStep.done given st
  else
    let sresp := env.searchScrip st.nSearch
    let st2 := { st with nSearch := st.nSearch + 1 }
    if isExpirySignal sresp then ResolveStep.retry (invalidateSession st2)
    else
      match sresp with
      | PyVal.pdict skvs =>
          if !(truthy (pyDictGet skvs "status")) then
            ResolveStep.fail "searchScrip() failed" st2
          else
            match ordersOf (pyOr (pyDictGet skvs "data") (PyVal.plist [])) with
            | [] => ResolveStep.fail "No matching scrip found to resolve symboltoken" st2
            | r0 :: rs =>
                let chosen :=
                  (chooseScripExact order.exchange.toPy order.tradingsymbol (r0 :: rs)).getD r0
                match chosen with
                | PyVal.pdict ckvs =>
                    let tok := pyDictGet ckvs "symboltoken"
                    if !(truthy tok) then
                      ResolveStep.fail "searchScrip() returned invalid symbol data" st2
                    else ResolveStep.done tok st2
                | _ => ResolveStep.fail "AttributeError: get on a non-dict" st2
      | _ => ResolveStep.fail "searchScrip() failed" st2

/-- Step 3 of `buy_delivery_trade_with_order_params`: the provider payload.
`"price": None if order.ordertype == "MARKET" else order.price` compares
the `OrderType` enum member against the string `"MARKET"`. -/
def buildOrderParams (order : DeliveryTradeParams) (symboltoken : PyVal) :
    List (String × PyVal) :=
  [("variety", order.variety.toPy),
   ("tradingsymbol", PyVal.pstr order.tradingsymbol),
   ("symboltoken", PyVal.pstr (pyStr symboltoken)),
   ("transactiontype", order.transactiontype.toPy),
   ("exchange", order.exchange.toPy),
   ("ordertype", order.ordertype.toPy),
   ("producttype", order.producttype.toPy),
   ("duration", order.duration.toPy),
   ("price",
     if pyEq order.ordertype.toPy (PyVal.pstr "MARKET") then PyVal.pnone
     else optFloatToPy order.price),
   ("squareoff", PyVal.pstr order.squareoff),
   ("stoploss", PyVal.pstr order.stoploss),
   ("quantity", PyVal.pstr (toString order.quantity))]

/-- The function `buy_delivery_trade_with_order_params(secret, order)`. -/
def buyDeliveryTradeWithOrderParams (env : SubmitEnv) (now : Nat)
    (order : DeliveryTradeParams) : Nat → TradeState → TradeOutcome × TradeState
  | 0, st => (TradeOutcome.recursionOverflow, st)
  | fuel + 1, st =>
      if pyStrip order.tradingsymbol == "" then
        (TradeOutcome.err "tradingsymbol must be a non-empty string", st)
      else if order.quantity < 1 then
        (TradeOutcome.err "quantity must be a whole number >= 1", st)
      else
        match ensureSession env now st with
        | Except.error e => (TradeOutcome.err e, st)
        | Except.ok st1 =>
            match resolveSymbolToken env order st1 with
            | ResolveStep.fail msg st2 => (TradeOutcome.err msg, st2)
            | ResolveStep.retry st2 =>
                buyDeliveryTradeWithOrderParams env now order fuel st2
            | ResolveStep.done tok st2 =>
                let payload := buildOrderParams order tok
                let presp := env.placeOrder st2.nPlace
                let st3 := { st2 with nPlace := st2.nPlace + 1,
                                      placed := st2.placed ++ [payload] }
                if isExpirySignal presp then
                  buyDeliveryTradeWithOrderParams env now order fuel
                    (invalidateSession st3)
                else
                  match presp with
                  | PyVal.pdict pkvs =>
                      if pyEq (pyDictGet pkvs "status") (PyVal.pbool false)
                          || !(pyEq (pyDictGet pkvs "error") PyVal.pnone) then
                        (TradeOutcome.err "buy_delivery_trade failed", st3)
                      else
                        let rcn := retrieveOrderStatus env.details env.orderBook presp 5
                        (TradeOutcome.ok
                          (normalize pkvs rcn.order_status rcn.order_status_details), st3)
                  | _ =>
                      (TradeOutcome.err "AttributeError: get on a non-dict", st3)

/-!  ## Crypto orders (`dtos/crypto_order_dto.py`,
`coinbase_service.execute_crypto_trade`)

Decimal amounts are exact rationals. Pydantic validates a model when it is
constructed: first the field constraints (`gt=Decimal("0")`), then the
`model_validator(mode="after")`; an inner config held by
`OrderConfiguration` has therefore already passed its own validation.  -/

/-- The model `MarketIOCConfig`: both sizes `Optional[Decimal]` defaulting to
`None`. -/
structure MarketIOCConfig where
  base_size : Option Rat
  quote_size : Option Rat

/-- The `gt=Decimal("0")` field constraints (checked only on provided
values). -/
def marketIOCFieldsOk (c : MarketIOCConfig) : Bool :=
  (match c.base_size with
   | none => true
   | some q => decide (0 < q))
    && (match c.quote_size with
        | none => true
        | some q => decide (0 < q))

/-- The validator `validate_exactly_one_size`:
`sum([base_size is not None, quote_size is not None]) != 1` raises. -/
def marketIOCExactlyOne (c : MarketIOCConfig) : Bool :=
  ((if c.base_size.isSome then 1 else 0)
    + (if c.quote_size.isSome then 1 else 0) : Nat) == 1

/-- Does pydantic accept this `MarketIOCConfig`? -/
def marketIOCAccepted (c : MarketIOCConfig) : Bool :=
  marketIOCFieldsOk c && marketIOCExactlyOne c

/-- The model `LimitGTCConfig`: required `base_size`, `limit_price`, optional
`post_only`. -/
structure LimitGTCConfig where
  base_size : Rat
  limit_price : Rat
  post_only : Bool

/-- The `gt=Decimal("0")` field constraints of this model. -/
def limitGTCAccepted (c : LimitGTCConfig) : Bool :=
  decide (0 < c.base_size) && decide (0 < c.limit_price)

/-- The model `LimitGTDConfig`: as GTC plus an expiry instant; `coerce_timezone` has
already normalized `end_time` to UTC seconds (it always succeeds, so it does
not affect acceptance). -/
structure LimitGTDConfig where
  base_size : Rat
  limit_price : Rat
  end_time : Int
  post_only : Bool

/-- The `gt=Decimal("0")` field constraints of this model. -/
def limitGTDAccepted (c : LimitGTDConfig) : Bool :=
  decide (0 < c.base_size) && decide (0 < c.limit_price)

/-- The model `OrderConfiguration`: the three optional one-of blocks. -/
structure OrderConfiguration where
  market_market_ioc : Option MarketIOCConfig
  limit_limit_gtc : Option LimitGTCConfig
  limit_limit_gtd : Option LimitGTDConfig

/-- The validator `validate_one_of`: the number of provided blocks must be exactly 1. -/
def orderConfigOneOf (cfg : OrderConfiguration) : Bool :=
  ((if cfg.market_market_ioc.isSome then 1 else 0)
    + (if cfg.limit_limit_gtc.isSome then 1 else 0)
    + (if cfg.limit_limit_gtd.isSome then 1 else 0) : Nat) == 1

/-- Does pydantic accept this `OrderConfiguration` (inner models validated
at their own construction, then `validate_one_of`)? -/
def orderConfigAccepted (cfg : OrderConfiguration) : Bool :=
  (match cfg.market_market_ioc with
   | none => true
   | some c => marketIOCAccepted c)
    && (match cfg.limit_limit_gtc with
        | none => true
        | some c => limitGTCAccepted c)
    && (match cfg.limit_limit_gtd with
        | none => true
        | some c => limitGTDAccepted c)
    && orderConfigOneOf cfg

/-- The enum `CryptoOrderSide(str, Enum)`. -/
inductive CryptoOrderSide where
  | BUY | SELL

/-- Python `params.side.value`. -/
def CryptoOrderSide.value : CryptoOrderSide → String
  | BUY => "BUY"
  | SELL => "SELL"

/-- The model `ExecuteCryptoTradeParams`. -/
structure ExecuteCryptoTradeParams where
  product_id : String
  side : CryptoOrderSide
  order_configuration : OrderConfiguration
  client_order_id : Option String
  dry_run : Bool

/-- Construction with the `dry_run` field omitted by the caller: pydantic
fills the declared default, `True`. -/
def mkExecuteCryptoTradeParamsDefault (pid : String) (side : CryptoOrderSide)
    (cfg : OrderConfiguration) (coid : Option String) : ExecuteCryptoTradeParams :=
  { product_id := pid
    side := side
    order_configuration := cfg
    client_order_id := coid
    dry_run := true }

/-- Python `str(Decimal(...))`: an injective rendering of the exact value (the
service only builds and forwards these strings, never parses them). -/
def decimalStr (q : Rat) : String :=
  toString q

/-- Python `end_time.isoformat().replace("+00:00", "Z")`: an abstract injective
RFC3339 rendering of the UTC instant. -/
def isoUtcZ (t : Int) : String :=
  toString t ++ "Z"

/-- The order payload `execute_crypto_trade` assembles before branching on
`dry_run`. -/
structure CryptoPayload where
  product_id : String
  side : String
  order_configuration : PyVal
  client_order_id : String

/-- The `order_configuration` dict: the market branch includes only the
sizes that are set; the limit branches stringify size and price and carry
`post_only`; no branch taken means the `RuntimeError` fallback. -/
def builtOrderConfiguration (cfg : OrderConfiguration) : Option PyVal :=
  match cfg.market_market_ioc with
  | some m =>
      some (PyVal.pdict [("market_market_ioc", PyVal.pdict
        ((match m.base_size with
          | some b => [("base_size", PyVal.pstr (decimalStr b))]
          | none => [])
          ++ (match m.quote_size with
              | some q => [("quote_size", PyVal.pstr (decimalStr q))]
              | none => [])))])
  | none =>
      match cfg.limit_limit_gtc with
      | some l =>
          some (PyVal.pdict [("limit_limit_gtc", PyVal.pdict
            [("base_size", PyVal.pstr (decimalStr l.base_size)),
             ("limit_price", PyVal.pstr (decimalStr l.limit_price)),
             ("post_only", PyVal.pbool l.post_only)])])
      | none =>
          match cfg.limit_limit_gtd with
          | some l =>
              some (PyVal.pdict [("limit_limit_gtd", PyVal.pdict
                [("base_size", PyVal.pstr (decimalStr l.base_size)),
                 ("limit_price", PyVal.pstr (decimalStr l.limit_price)),
                 ("end_time", PyVal.pstr (isoUtcZ l.end_time)),
                 ("post_only", PyVal.pbool l.post_only)])])
          | none => none

/-- Python `params.client_order_id or f"mcp-{uuid.uuid4()}"`: the supplied id when
truthy, else a fresh `mcp-`-prefixed one (`freshId` is this request's
`uuid4` text). -/
def chosenClientOrderId (coid : Option String) (freshId : String) : String :=
  match coid with
  | some s => if s != "" then s else "mcp-" ++ freshId
  | none => "mcp-" ++ freshId

/-- The full payload dict handed either back to the caller (dry run) or to
`client.create_order(**payload)`. -/
def buildCryptoPayload (p : ExecuteCryptoTradeParams) (freshId : String) :
    Option CryptoPayload :=
  match builtOrderConfiguration p.order_configuration with
  | none => none
  | some oc =>
      some { product_id := p.product_id
             side := p.side.value
             order_configuration := oc
             client_order_id := chosenClientOrderId p.client_order_id freshId }

/-- How `execute_crypto_trade` ends: `{"dry_run": True, "payload": ...}`
without any outbound call, an order actually transmitted via
`create_order`, or the raised `RuntimeError` fallback. -/
inductive CryptoResult where
  | dryRun (payload : CryptoPayload)
  | submitted (payload : CryptoPayload)
  | err (msg : String)

/-- The function `execute_crypto_trade(secret, params)` with `freshId` the `uuid4` drawn
for this request. -/
def executeCryptoTrade (p : ExecuteCryptoTradeParams) (freshId : String) :
    CryptoResult :=
  match buildCryptoPayload p freshId with
  | none => CryptoResult.err "Invalid order configuration"
  | some pl =>
      if p.dry_run then CryptoResult.dryRun pl else CryptoResult.submitted pl

/-- A detail-endpoint script that always answers with a settled order. -/
def dsHitScript : Nat → Except String PyVal := fun _ =>
  Except.ok (PyVal.pdict
    [("status", PyVal.pbool true),
     ("data", PyVal.pdict [("orderstatus", PyVal.pstr "open")])])

/-- A detail-endpoint script that always raises. -/
def errScript : Nat → Except String PyVal := fun _ => Except.error "boom"

/-- An order-book script whose listing is always empty. -/
def obEmptyScript : Nat → Except String PyVal := fun _ =>
  Except.ok (PyVal.pdict [("status", PyVal.pbool true), ("data", PyVal.plist [])])

/-- A successful placement response carrying both identifiers. -/
def placeResp : PyVal :=
  PyVal.pdict
    [("status", PyVal.pbool true),
     ("data", PyVal.pdict
        [("uniqueorderid", PyVal.pstr "U1"), ("orderid", PyVal.pint 7)])]

/-- An order-book entry matching unique id `U1`, with a settled status. -/
def matchedItem : PyVal :=
  PyVal.pdict
    [("uniqueorderid", PyVal.pstr "U1"), ("orderstatus", PyVal.pstr "complete")]

/-- An order-book script: empty listings except on the third call, which
lists `matchedItem`. -/
def obMatchAt2Script : Nat → Except String PyVal := fun i =>
  if i == 2 then
    Except.ok (PyVal.pdict
      [("status", PyVal.pbool true), ("data", PyVal.plist [matchedItem])])
  else
    Except.ok (PyVal.pdict
      [("status", PyVal.pbool true), ("data", PyVal.plist [])])

/-!  ## Fixtures: concrete provider responses and states  -/

/-- A successful `generateSession` response. -/
def loginOkResp : PyVal :=
  PyVal.pdict
    [("status", PyVal.pbool true),
     ("data", PyVal.pdict [("jwtToken", PyVal.pstr "jwt")])]

/-- A session-expiry response (`code` 401 and a `Session`-bearing
message). -/
def expiryResp : PyVal :=
  PyVal.pdict
    [("code", PyVal.pint 401),
     ("message", PyVal.pstr "Session Expired")]

/-- The empty starting state: no cached session, no calls made. -/
def initialTradeState : TradeState :=
  { session := { access_token := PyVal.pnone, login_time := none }
    nAuth := 0, nSearch := 0, nPlace := 0, placed := [] }

/-- A provider whose login always succeeds but whose `searchScrip` always
signals session expiry — the spec's "misconfigured credential". -/
def alwaysExpiredEnv : SubmitEnv :=
  { genSession := fun _ => loginOkResp
    searchScrip := fun _ => expiryResp
    placeOrder := fun _ => expiryResp
    details := fun _ => Except.error "unused"
    orderBook := fun _ => Except.error "unused" }

/-- A `searchScrip` response with a single usable instrument. -/
def searchOkOneResp : PyVal :=
  PyVal.pdict
    [("status", PyVal.pbool true),
     ("data", PyVal.plist [PyVal.pdict
        [("tradingsymbol", PyVal.pstr "TCS-EQ"),
         ("symboltoken", PyVal.pstr "3045")]])]

/-- A successful placement response carrying only `orderid`. -/
def placeOkResp : PyVal :=
  PyVal.pdict
    [("status", PyVal.pbool true),
     ("data", PyVal.pdict [("orderid", PyVal.pstr "OID7")])]

/-- A provider where login, search and placement all succeed, the detail
endpoint always raises, and the order book answers per the given script. -/
def quietEnv (obs : Nat → Except String PyVal) : SubmitEnv :=
  { genSession := fun _ => loginOkResp
    searchScrip := fun _ => searchOkOneResp
    placeOrder := fun _ => placeOkResp
    details := errScript
    orderBook := obs }

/-- A search result: NSE, symbol `TCS-BE`. -/
def tcsBeItem : PyVal :=
  PyVal.pdict
    [("exchange", PyVal.pstr "NSE"), ("tradingsymbol", PyVal.pstr "TCS-BE"),
     ("symboltoken", PyVal.pstr "1001")]

/-- A search result: NSE, symbol `TCS-EQ`. -/
def tcsEqItem : PyVal :=
  PyVal.pdict
    [("exchange", PyVal.pstr "NSE"), ("tradingsymbol", PyVal.pstr "TCS-EQ"),
     ("symboltoken", PyVal.pstr "1002")]

/-- A search result: NSE, symbol exactly `TCS`. -/
def tcsExactItem : PyVal :=
  PyVal.pdict
    [("exchange", PyVal.pstr "NSE"), ("tradingsymbol", PyVal.pstr "TCS"),
     ("symboltoken", PyVal.pstr "1003")]

/-- A valid DTO instance: a MARKET delivery order that nonetheless carries
`price = 100`. -/
def marketOrderWithPrice : DeliveryTradeParams :=
  { variety := Variety.NORMAL
    tradingsymbol := "TCS"
    symboltoken := some "1003"
    transactiontype := TransactionType.BUY
    exchange := Exchange.NSE
    ordertype := OrderType.MARKET
    producttype := ProductType.DELIVERY
    duration := OrderDuration.DAY
    price := some 100
    squareoff := "0"
    stoploss := "0"
    quantity := 1 }

/-- A valid dry-run parameter set: market IOC with one size, a
client-supplied idempotency key, `dry_run = true`. -/
def sampleCryptoParams : ExecuteCryptoTradeParams :=
  { product_id := "BTC-USD"
    side := CryptoOrderSide.BUY
    order_configuration :=
      { market_market_ioc := some { base_size := some 1, quote_size := none }
        limit_limit_gtc := none
        limit_limit_gtd := none }
    client_order_id := some "cid-1"
    dry_run := true }

/-!  ## Helper lemmas about the reconciliation loop  -/

/-- A raised detail lookup never yields a hit. -/
lemma detailHit_error (uid : PyVal) (e : String) :
    detailHit uid (Except.error e) = none := by
  unfold detailHit
  split <;> rfl

/-- One attempt with no hit on either branch sleeps once and moves on. -/
lemma reconLoop_step_nohit (ds obs : Nat → Except String PyVal)
    (uid oid : PyVal) (n i : Nat) (le : PyVal) (sl : Nat)
    (hd : detailHit uid (ds i) = none) (hob : obHit uid oid (obs i) = none) :
    reconLoop ds obs uid oid (n + 1) i le sl
      = reconLoop ds obs uid oid n (i + 1)
          (obErrUpd (obs i) (detailErrUpd uid (ds i) le)) (sl + 1) := by
  simp only [reconLoop, hd, hob]

/-- An attempt whose order-book scan matches terminates at once, without a
further sleep. -/
lemma reconLoop_step_obhit (ds obs : Nat → Except String PyVal)
    (uid oid m : PyVal) (n i : Nat) (le : PyVal) (sl : Nat)
    (hd : detailHit uid (ds i) = none) (hob : obHit uid oid (obs i) = some m) :
    reconLoop ds obs uid oid (n + 1) i le sl
      = (m, obErrUpd (obs i) (detailErrUpd uid (ds i) le), sl) := by
  simp only [reconLoop, hd, hob]

/-- With no hit on any of the `n` attempts the loop exhausts its budget:
no details, and one sleep per attempt. -/
lemma reconLoop_no_hit (ds obs : Nat → Except String PyVal) (uid oid : PyVal) :
    ∀ (n i : Nat) (le : PyVal) (sl : Nat),
      (∀ j, j < n → detailHit uid (ds (i + j)) = none) →
      (∀ j, j < n → obHit uid oid (obs (i + j)) = none) →
      (reconLoop ds obs uid oid n i le sl).1 = PyVal.pnone
        ∧ (reconLoop ds obs uid oid n i le sl).2.2 = sl + n := by
  intro n
  induction n with
  | zero => intro i le sl _ _; exact ⟨rfl, rfl⟩
  | succ k ih =>
      intro i le sl hd hob
      have hd0 : detailHit uid (ds i) = none := by simpa using hd 0 (Nat.succ_pos k)
      have hob0 : obHit uid oid (obs i) = none := by simpa using hob 0 (Nat.succ_pos k)
      rw [reconLoop_step_nohit ds obs uid oid k i le sl hd0 hob0]
      have hd2 : ∀ j, j < k → detailHit uid (ds (i + 1 + j)) = none := by
        intro j hj
        have h := hd (j + 1) (by omega)
        have e : i + (j + 1) = i + 1 + j := by omega
        rw [e] at h
        exact h
      have hob2 : ∀ j, j < k → obHit uid oid (obs (i + 1 + j)) = none := by
        intro j hj
        have h := hob (j + 1) (by omega)
        have e : i + (j + 1) = i + 1 + j := by omega
        rw [e] at h
        exact h
      obtain ⟨h1, h2⟩ :=
        ih (i + 1) (obErrUpd (obs i) (detailErrUpd uid (ds i) le)) (sl + 1) hd2 hob2
      refine ⟨h1, ?_⟩
      rw [h2]
      omega

/-- How `order_status` relates to the details it is derived from. -/
lemma statusFrom_spec (d : PyVal) :
    (statusFrom d ≠ PyVal.pnone →
      ∃ kvs, d = PyVal.pdict kvs ∧ statusFrom d = pyDictGet kvs "orderstatus")
    ∧ (d = PyVal.pnone → statusFrom d = PyVal.pnone) := by
  cases d with
  | pnone => exact ⟨fun h => (h rfl).elim, fun _ => rfl⟩
  | pbool b => exact ⟨fun h => (h rfl).elim, fun h => nomatch h⟩
  | pint n => exact ⟨fun h => (h rfl).elim, fun h => nomatch h⟩
  | pfloat q => exact ⟨fun h => (h rfl).elim, fun h => nomatch h⟩
  | pstr s => exact ⟨fun h => (h rfl).elim, fun h => nomatch h⟩
  | penum c n => exact ⟨fun h => (h rfl).elim, fun h => nomatch h⟩
  | plist xs => exact ⟨fun h => (h rfl).elim, fun h => nomatch h⟩
  | pdict kvs => exact ⟨fun _ => ⟨kvs, rfl, rfl⟩, fun h => nomatch h⟩

/-!  ## Claim C10: a non-null status comes with non-null dict details  -/

/-- C10. In every pair the reconciler returns, `order_status` is non-null
only when `order_status_details` is a non-null mapping, in which case it is
that mapping's `"orderstatus"` entry; and null details force a null
status. -/
theorem c10_status_null_coupling (ds obs : Nat → Except String PyVal)
    (resp : PyVal) (n : Nat) :
    ((retrieveOrderStatus ds obs resp n).order_status ≠ PyVal.pnone →
      ∃ kvs,
        (retrieveOrderStatus ds obs resp n).order_status_details = PyVal.pdict kvs
          ∧ (retrieveOrderStatus ds obs resp n).order_status
              = pyDictGet kvs "orderstatus")
    ∧ ((retrieveOrderStatus ds obs resp n).order_status_details = PyVal.pnone →
        (retrieveOrderStatus ds obs resp n).order_status = PyVal.pnone) :=
  statusFrom_spec ((retrieveOrderStatus ds obs resp n).order_status_details)

/-- C10, instantiated: a run whose detail lookup succeeds has dict details
carrying the status, and a run with nothing but errors and empty listings
ends with a null status. -/
theorem c10_status_null_coupling_witness :
    (∃ kvs,
      (retrieveOrderStatus dsHitScript obEmptyScript placeResp 5).order_status_details
          = PyVal.pdict kvs
        ∧ (retrieveOrderStatus dsHitScript obEmptyScript placeResp 5).order_status
            = pyDictGet kvs "orderstatus")
    ∧ (retrieveOrderStatus errScript obEmptyScript placeResp 5).order_status
        = PyVal.pnone :=
  ⟨(c10_status_null_coupling dsHitScript obEmptyScript placeResp 5).1
      (fun h => nomatch h),
   (c10_status_null_coupling errScript obEmptyScript placeResp 5).2 rfl⟩

/-!  ## Claim C6: order-book match on the third attempt, two sleeps  -/

/-- C6. If the detail lookup raises on every attempt while the order-book
scan misses on the first two attempts and matches entry `m` on the third,
the reconciler stops right there: it returns `m` with `m`'s status, having
slept exactly twice. -/
theorem c6_third_attempt_match (ds obs : Nat → Except String PyVal)
    (resp : PyVal) (uid oid m : PyVal)
    (hids : extractIds resp = (uid, oid))
    (hds : ∀ i, i < 5 → ∃ e, ds i = Except.error e)
    (hob0 : obHit uid oid (obs 0) = none)
    (hob1 : obHit uid oid (obs 1) = none)
    (hob2 : obHit uid oid (obs 2) = some m) :
    retrieveOrderStatus ds obs resp 5 =
      { order_status := statusFrom m, order_status_details := m, sleeps := 2 } := by
  have hd : ∀ i, i < 5 → detailHit uid (ds i) = none := by
    intro i hi
    obtain ⟨e, he⟩ := hds i hi
    rw [he]
    exact detailHit_error uid e
  have s0 := reconLoop_step_nohit ds obs uid oid 4 0 PyVal.pnone 0
    (hd 0 (by omega)) hob0
  have s1 := reconLoop_step_nohit ds obs uid oid 3 1
    (obErrUpd (obs 0) (detailErrUpd uid (ds 0) PyVal.pnone)) 1
    (hd 1 (by omega)) hob1
  have s2 := reconLoop_step_obhit ds obs uid oid m 2 2
    (obErrUpd (obs 1) (detailErrUpd uid (ds 1)
      (obErrUpd (obs 0) (detailErrUpd uid (ds 0) PyVal.pnone)))) 2
    (hd 2 (by omega)) hob2
  norm_num at s0 s1 s2
  unfold retrieveOrderStatus
  rw [hids]
  show ReconOutcome.mk
      (statusFrom (reconLoop ds obs uid oid 5 0 PyVal.pnone 0).1)
      (reconLoop ds obs uid oid 5 0 PyVal.pnone 0).1
      (reconLoop ds obs uid oid 5 0 PyVal.pnone 0).2.2 = _
  rw [s0, s1, s2]

/-- C6, instantiated: detail lookups that always raise, an order book that
matches only on the third poll; the reconciler returns that match and its
status after exactly two sleeps. -/
theorem c6_third_attempt_match_witness :
    extractIds placeResp = (PyVal.pstr "U1", PyVal.pint 7)
    ∧ (∀ i, i < 5 → ∃ e, errScript i = Except.error e)
    ∧ obHit (PyVal.pstr "U1") (PyVal.pint 7) (obMatchAt2Script 0) = none
    ∧ obHit (PyVal.pstr "U1") (PyVal.pint 7) (obMatchAt2Script 1) = none
    ∧ obHit (PyVal.pstr "U1") (PyVal.pint 7) (obMatchAt2Script 2) = some matchedItem
    ∧ retrieveOrderStatus errScript obMatchAt2Script placeResp 5 =
        { order_status := statusFrom matchedItem,
          order_status_details := matchedItem, sleeps := 2 } :=
  ⟨rfl, fun _ _ => ⟨"boom", rfl⟩, rfl, rfl, rfl,
   c6_third_attempt_match errScript obMatchAt2Script placeResp
     (PyVal.pstr "U1") (PyVal.pint 7) matchedItem rfl
     (fun _ _ => ⟨"boom", rfl⟩) rfl rfl rfl⟩

/-!  ## Claim C1: the expiry retry is an unbounded recursion  -/

/-- C1 (against the claim). Against a provider that signals session expiry
on every `searchScrip` call, `buy_delivery_trade` re-authenticates once per
recursion level and keeps recursing: at every modelled depth `fuel` the run
is still recursing (never a raised `SubmissionError`-style failure) and has
performed `fuel` authentications — in particular a third one after two
consecutive expiry signals. -/
theorem c1_expiry_retry_unbounded (now : Nat) :
    ∀ (fuel : Nat) (st : TradeState),
      truthy st.session.access_token = false →
      (buyDeliveryTrade alwaysExpiredEnv now "TCS" 1 fuel st).1
          = TradeOutcome.recursionOverflow
        ∧ (buyDeliveryTrade alwaysExpiredEnv now "TCS" 1 fuel st).2.nAuth
            = st.nAuth + fuel := by
  intro fuel
  induction fuel with
  | zero => intro st _; exact ⟨rfl, rfl⟩
  | succ m ih =>
      intro st hsess
      have hvalid : sessionValid st.session now = false := by
        unfold sessionValid
        cases h : st.session.login_time with
        | none => rfl
        | some lt => rw [hsess]; rfl
      have hens : ensureSession alwaysExpiredEnv now st
          = Except.ok { st with nAuth := st.nAuth + 1, session := ⟨PyVal.pstr "jwt", some now⟩ } := by
        unfold ensureSession
        rw [hvalid]
        rfl
      have hstep : buyDeliveryTrade alwaysExpiredEnv now "TCS" 1 (m + 1) st
          = buyDeliveryTrade alwaysExpiredEnv now "TCS" 1 m
              { st with nAuth := st.nAuth + 1, nSearch := st.nSearch + 1, session := ⟨PyVal.pnone, some now⟩ } := by
        simp only [buyDeliveryTrade]
        rw [hens]
        rfl
      rw [hstep]
      obtain ⟨h1, h2⟩ := ih
        { st with nAuth := st.nAuth + 1, nSearch := st.nSearch + 1, session := ⟨PyVal.pnone, some now⟩ }
        rfl
      refine ⟨h1, ?_⟩
      rw [h2]
      show st.nAuth + 1 + m = st.nAuth + (m + 1)
      omega

/-- C1, instantiated: from a cold cache and with fuel for three rounds, the
run makes three authentications and is still retrying — there is no
second-expiry failure and no cap at two authentications. -/
theorem c1_expiry_retry_unbounded_witness :
    truthy initialTradeState.session.access_token = false
    ∧ ((buyDeliveryTrade alwaysExpiredEnv 0 "TCS" 1 3 initialTradeState).1
          = TradeOutcome.recursionOverflow
        ∧ (buyDeliveryTrade alwaysExpiredEnv 0 "TCS" 1 3 initialTradeState).2.nAuth
            = initialTradeState.nAuth + 3) :=
  ⟨rfl, c1_expiry_retry_unbounded 0 3 initialTradeState rfl⟩

/-!  ## Claim C4: the reconciler degrades to a null status, the order
operation still succeeds  -/

/-- C4. First conjunct: for every pair of endpoint scripts and every
placement response, if no attempt yields a detail hit or an order-book hit,
the reconciler runs its full 5-attempt budget (sleeping after each attempt)
and returns null status and null details — it never raises, every
per-attempt exception having been caught inside the loop. Second conjunct:
an entire `buy_delivery_trade` run whose placement succeeded still returns
the placement's order id with null status fields when reconciliation finds
nothing. -/
theorem c4_reconciler_degrades_to_null (obs : Nat → Except String PyVal)
    (hob : ∀ i, i < 5 → obHit PyVal.pnone (PyVal.pstr "OID7") (obs i) = none) :
    (∀ ds obs2 : Nat → Except String PyVal, ∀ resp : PyVal,
      (∀ i, i < 5 → detailHit (extractIds resp).1 (ds i) = none) →
      (∀ i, i < 5 → obHit (extractIds resp).1 (extractIds resp).2 (obs2 i) = none) →
      retrieveOrderStatus ds obs2 resp 5 =
        { order_status := PyVal.pnone, order_status_details := PyVal.pnone,
          sleeps := 5 })
    ∧ (buyDeliveryTrade (quietEnv obs) 0 "TCS" 1 1 initialTradeState).1 =
        TradeOutcome.ok
          { order_id := PyVal.pstr "OID7", order_status := PyVal.pnone,
            order_status_details := PyVal.pnone } := by
  constructor
  · intro ds obs2 resp hd hob2
    obtain ⟨h1, h2⟩ := reconLoop_no_hit ds obs2 (extractIds resp).1
      (extractIds resp).2 5 0 PyVal.pnone 0
      (fun j hj => by simpa using hd j hj)
      (fun j hj => by simpa using hob2 j hj)
    show ReconOutcome.mk
        (statusFrom (reconLoop ds obs2 (extractIds resp).1 (extractIds resp).2
          5 0 PyVal.pnone 0).1)
        (reconLoop ds obs2 (extractIds resp).1 (extractIds resp).2
          5 0 PyVal.pnone 0).1
        (reconLoop ds obs2 (extractIds resp).1 (extractIds resp).2
          5 0 PyVal.pnone 0).2.2 = _
    rw [h1, h2]
    norm_num [statusFrom]
  · have hrecon : retrieveOrderStatus errScript obs placeOkResp 5 =
        { order_status := PyVal.pnone, order_status_details := PyVal.pnone,
          sleeps := 5 } := by
      obtain ⟨h1, h2⟩ := reconLoop_no_hit errScript obs PyVal.pnone
        (PyVal.pstr "OID7") 5 0 PyVal.pnone 0
        (fun j _ => rfl)
        (fun j hj => by simpa using hob j hj)
      show ReconOutcome.mk
          (statusFrom (reconLoop errScript obs PyVal.pnone (PyVal.pstr "OID7")
            5 0 PyVal.pnone 0).1)
          (reconLoop errScript obs PyVal.pnone (PyVal.pstr "OID7")
            5 0 PyVal.pnone 0).1
          (reconLoop errScript obs PyVal.pnone (PyVal.pstr "OID7")
            5 0 PyVal.pnone 0).2.2 = _
      rw [h1, h2]
      norm_num [statusFrom]
    show TradeOutcome.ok
        (normalize
          [("status", PyVal.pbool true),
           ("data", PyVal.pdict [("orderid", PyVal.pstr "OID7")])]
          (retrieveOrderStatus errScript obs placeOkResp 5).order_status
          (retrieveOrderStatus errScript obs placeOkResp 5).order_status_details)
        = _
    rw [hrecon]
    rfl

/-- C4, instantiated: with an always-empty order book the reconciler returns
nulls after its 5 attempts and the overall call succeeds with the placement
id. -/
theorem c4_reconciler_degrades_to_null_witness :
    (∀ i, i < 5 → obHit PyVal.pnone (PyVal.pstr "OID7") (obEmptyScript i) = none)
    ∧ ((∀ ds obs2 : Nat → Except String PyVal, ∀ resp : PyVal,
        (∀ i, i < 5 → detailHit (extractIds resp).1 (ds i) = none) →
        (∀ i, i < 5 → obHit (extractIds resp).1 (extractIds resp).2 (obs2 i) = none) →
        retrieveOrderStatus ds obs2 resp 5 =
          { order_status := PyVal.pnone, order_status_details := PyVal.pnone,
            sleeps := 5 })
      ∧ (buyDeliveryTrade (quietEnv obEmptyScript) 0 "TCS" 1 1 initialTradeState).1 =
          TradeOutcome.ok
            { order_id := PyVal.pstr "OID7", order_status := PyVal.pnone,
              order_status_details := PyVal.pnone }) :=
  ⟨fun i _ => rfl, c4_reconciler_degrades_to_null obEmptyScript (fun i _ => rfl)⟩

/-!  ## Claim C5: symbol-resolution tie-breaks  -/

/-- C5 (against the claim, at the explicit-parameter site). The query-based
site does resolve the claim's example to `TCS-EQ` in either input order
(first two conjuncts, where the local `exchange` is the string `"NSE"`).
But at the explicit-parameter site the requested exchange is the `Exchange`
enum member, which Python never equates with the provider's exchange
string: the exact-match predicate rejects even a perfectly matching entry,
so the scan always falls back to the first result instead of preferring the
exact symbol match. -/
theorem c5_exact_site_never_prefers :
    chooseScrip (PyVal.pstr "NSE") [tcsBeItem, tcsEqItem] = some tcsEqItem
    ∧ chooseScrip (PyVal.pstr "NSE") [tcsEqItem, tcsBeItem] = some tcsEqItem
    ∧ exactScripPred Exchange.NSE.toPy "TCS" tcsExactItem = false
    ∧ pyEq (pyDictGet
        [("exchange", PyVal.pstr "NSE"), ("tradingsymbol", PyVal.pstr "TCS"),
         ("symboltoken", PyVal.pstr "1003")] "exchange") Exchange.NSE.toPy = false
    ∧ chooseScripExact Exchange.NSE.toPy "TCS" [tcsBeItem, tcsExactItem]
        = some tcsBeItem :=
  ⟨rfl, rfl, rfl, rfl, rfl⟩

/-!  ## Claim C9: response normalization is a total as-is copy  -/

/-- C9. The normalizer builds the three-field response record: it copies
status and details as-is (nulls included), and the order id is
`data.orderid` of the placement response (null when the data block is
null). -/
theorem c9_normalize_total_copy (resp : List (String × PyVal)) (st det : PyVal) :
    ((normalize resp st det).order_status = st
      ∧ (normalize resp st det).order_status_details = det)
    ∧ (∀ dk, pyDictGet resp "data" = PyVal.pdict dk →
        (normalize resp st det).order_id = pyDictGet dk "orderid")
    ∧ (pyDictGet resp "data" = PyVal.pnone →
        (normalize resp st det).order_id = PyVal.pnone) := by
  refine ⟨⟨rfl, rfl⟩, ?_, ?_⟩
  · intro dk h
    show (match pyOr (pyDictGet resp "data") (PyVal.pdict []) with
          | PyVal.pdict dk2 => pyDictGet dk2 "orderid"
          | _ => PyVal.pnone) = pyDictGet dk "orderid"
    rw [h]
    cases dk with
    | nil => rfl
    | cons a l => rfl
  · intro h
    show (match pyOr (pyDictGet resp "data") (PyVal.pdict []) with
          | PyVal.pdict dk2 => pyDictGet dk2 "orderid"
          | _ => PyVal.pnone) = PyVal.pnone
    rw [h]
    rfl

/-- C9, instantiated at a placement response with an `orderid` and at null
status fields. -/
theorem c9_normalize_total_copy_witness :
    ((normalize [("data", PyVal.pdict [("orderid", PyVal.pstr "X")])]
        PyVal.pnone PyVal.pnone).order_status = PyVal.pnone
      ∧ (normalize [("data", PyVal.pdict [("orderid", PyVal.pstr "X")])]
          PyVal.pnone PyVal.pnone).order_status_details = PyVal.pnone)
    ∧ (∀ dk, pyDictGet [("data", PyVal.pdict [("orderid", PyVal.pstr "X")])] "data"
          = PyVal.pdict dk →
        (normalize [("data", PyVal.pdict [("orderid", PyVal.pstr "X")])]
          PyVal.pnone PyVal.pnone).order_id = pyDictGet dk "orderid")
    ∧ (pyDictGet [("data", PyVal.pdict [("orderid", PyVal.pstr "X")])] "data"
          = PyVal.pnone →
        (normalize [("data", PyVal.pdict [("orderid", PyVal.pstr "X")])]
          PyVal.pnone PyVal.pnone).order_id = PyVal.pnone) :=
  c9_normalize_total_copy [("data", PyVal.pdict [("orderid", PyVal.pstr "X")])]
    PyVal.pnone PyVal.pnone

/-!  ## Claim C3: MARKET order with a non-null price  -/

/-- C3 counterexample. The DTO accepts a MARKET order carrying a price, and
the explicit-parameter submit path does not reject it: the run places the
order (exactly one payload is handed to the provider) and succeeds — and
the submitted payload still carries `price = 100`, because the intended
MARKET repair compares the `OrderType` enum to the string `"MARKET"` and
never fires. -/
theorem c3_market_price_not_rejected :
    deliveryParamsAccepted marketOrderWithPrice = true
    ∧ (buyDeliveryTradeWithOrderParams (quietEnv obEmptyScript) 0
        marketOrderWithPrice 1 initialTradeState).2.placed
        = [buildOrderParams marketOrderWithPrice (PyVal.pstr "1003")]
    ∧ pyDictGet (buildOrderParams marketOrderWithPrice (PyVal.pstr "1003")) "price"
        = PyVal.pfloat 100
    ∧ (buyDeliveryTradeWithOrderParams (quietEnv obEmptyScript) 0
        marketOrderWithPrice 1 initialTradeState).1
        = TradeOutcome.ok
            { order_id := PyVal.pstr "OID7", order_status := PyVal.pnone,
              order_status_details := PyVal.pnone } :=
  ⟨rfl, rfl, rfl, rfl⟩

/-- C3 as amended. For every accepted order with `ordertype = MARKET`
(whatever its price) whose token is supplied, a submit against a
non-expiring provider is not rejected: it hands the payload to the
provider, and that payload's `price` is the order's own price embedded
as-is — the `None if ordertype == "MARKET"` translation never fires because
the enum member is not equal to the string. -/
theorem c3_market_price_passthrough (order : DeliveryTradeParams) (tk : String)
    (env : SubmitEnv) (now : Nat) (st : TradeState) (fuel : Nat)
    (pkvs : List (String × PyVal))
    (hm : order.ordertype = OrderType.MARKET)
    (hq : 1 ≤ order.quantity)
    (hts : (pyStrip order.tradingsymbol == "") = false)
    (htok : order.symboltoken = some tk)
    (htk : tk ≠ "")
    (hsess : sessionValid st.session now = true)
    (hplace : env.placeOrder st.nPlace = PyVal.pdict pkvs)
    (hnexp : isExpirySignal (PyVal.pdict pkvs) = false)
    (hst : pyEq (pyDictGet pkvs "status") (PyVal.pbool false) = false)
    (herr : pyEq (pyDictGet pkvs "error") PyVal.pnone = true) :
    deliveryParamsAccepted order = true
    ∧ (buyDeliveryTradeWithOrderParams env now order (fuel + 1) st).2.placed
        = st.placed ++ [buildOrderParams order (PyVal.pstr tk)]
    ∧ pyDictGet (buildOrderParams order (PyVal.pstr tk)) "price"
        = optFloatToPy order.price := by
  have hacc : deliveryParamsAccepted order = true := by
    simp only [deliveryParamsAccepted, decide_eq_true_eq]
    exact hq
  have hens : ensureSession env now st = Except.ok st := by
    unfold ensureSession
    rw [hsess]
    rfl
  have hres : resolveSymbolToken env order st = ResolveStep.done (PyVal.pstr tk) st := by
    unfold resolveSymbolToken
    rw [htok]
    simp [truthy, htk]
  have hprice : pyDictGet (buildOrderParams order (PyVal.pstr tk)) "price"
      = optFloatToPy order.price := by
    simp only [buildOrderParams, hm]
    rfl
  refine ⟨hacc, ?_, hprice⟩
  simp only [buyDeliveryTradeWithOrderParams, hts, hens, hres, hplace, hnexp,
    hst, herr, Bool.false_eq_true, if_false]
  rw [if_neg (by omega : ¬ order.quantity < 1)]
  simp

/-- C3 as amended, instantiated at the concrete MARKET-with-price order. -/
theorem c3_market_price_passthrough_witness :
    (marketOrderWithPrice.ordertype = OrderType.MARKET
      ∧ (1 : Int) ≤ marketOrderWithPrice.quantity
      ∧ (pyStrip marketOrderWithPrice.tradingsymbol == "") = false
      ∧ marketOrderWithPrice.symboltoken = some "1003"
      ∧ sessionValid ⟨PyVal.pstr "jwt", some 0⟩ 0 = true)
    ∧ (deliveryParamsAccepted marketOrderWithPrice = true
        ∧ (buyDeliveryTradeWithOrderParams (quietEnv obEmptyScript) 0
            marketOrderWithPrice (0 + 1)
            { initialTradeState with nAuth := 1, session := ⟨PyVal.pstr "jwt", some 0⟩ }).2.placed
            = initialTradeState.placed ++
                [buildOrderParams marketOrderWithPrice (PyVal.pstr "1003")]
        ∧ pyDictGet (buildOrderParams marketOrderWithPrice (PyVal.pstr "1003")) "price"
            = optFloatToPy marketOrderWithPrice.price) :=
  ⟨⟨rfl, by decide, rfl, rfl, rfl⟩,
   c3_market_price_passthrough marketOrderWithPrice "1003" (quietEnv obEmptyScript) 0
     { initialTradeState with nAuth := 1, session := ⟨PyVal.pstr "jwt", some 0⟩ } 0
     [("status", PyVal.pbool true), ("data", PyVal.pdict [("orderid", PyVal.pstr "OID7")])]
     rfl (by decide) rfl rfl (by decide) rfl rfl rfl rfl rfl⟩

/-!  ## Claim C7: crypto order-configuration validation  -/

/-- C7. The market-immediate-or-cancel block validates iff exactly one of
`base_size`/`quote_size` is provided (with the provided one positive); both
limit blocks require strictly positive size and price; and the one-of
validator accepts iff exactly one of the three blocks is populated. -/
theorem c7_crypto_one_of_validation :
    (∀ c : MarketIOCConfig, marketIOCAccepted c = true ↔
      (((∃ b, c.base_size = some b ∧ 0 < b) ∧ c.quote_size = none)
        ∨ (c.base_size = none ∧ ∃ q, c.quote_size = some q ∧ 0 < q)))
    ∧ (∀ c : LimitGTCConfig, limitGTCAccepted c = true ↔
        0 < c.base_size ∧ 0 < c.limit_price)
    ∧ (∀ c : LimitGTDConfig, limitGTDAccepted c = true ↔
        0 < c.base_size ∧ 0 < c.limit_price)
    ∧ (∀ cfg : OrderConfiguration, orderConfigOneOf cfg = true ↔
        ((cfg.market_market_ioc.isSome = true ∧ cfg.limit_limit_gtc = none
            ∧ cfg.limit_limit_gtd = none)
          ∨ (cfg.market_market_ioc = none ∧ cfg.limit_limit_gtc.isSome = true
              ∧ cfg.limit_limit_gtd = none)
          ∨ (cfg.market_market_ioc = none ∧ cfg.limit_limit_gtc = none
              ∧ cfg.limit_limit_gtd.isSome = true))) := by
  refine ⟨?_, ?_, ?_, ?_⟩
  · intro c
    obtain ⟨b, q⟩ := c
    cases b <;> cases q <;>
      simp [marketIOCAccepted, marketIOCFieldsOk, marketIOCExactlyOne]
  · intro c
    simp [limitGTCAccepted]
  · intro c
    simp [limitGTDAccepted]
  · intro cfg
    obtain ⟨m, g, d⟩ := cfg
    cases m <;> cases g <;> cases d <;> simp [orderConfigOneOf]

/-!  ## Claim C8: dry-run returns the payload and transmits nothing  -/

/-- C8. For every valid parameter set with `dry_run` true, the engine
returns the dry-run marker with the fully-built payload (the caller's
idempotency key when truthy, a fresh `mcp-` one otherwise) and transmits no
order; `dry_run` defaults to true when the caller omits it. -/
theorem c8_dry_run_no_transmission (p : ExecuteCryptoTradeParams) (freshId : String)
    (hv : orderConfigOneOf p.order_configuration = true)
    (hdry : p.dry_run = true) :
    (∃ pl, buildCryptoPayload p freshId = some pl
        ∧ executeCryptoTrade p freshId = CryptoResult.dryRun pl
        ∧ pl.client_order_id = chosenClientOrderId p.client_order_id freshId
        ∧ pl.product_id = p.product_id
        ∧ pl.side = p.side.value)
    ∧ (∀ pl2, executeCryptoTrade p freshId ≠ CryptoResult.submitted pl2)
    ∧ (∀ pid side cfg coid,
        (mkExecuteCryptoTradeParamsDefault pid side cfg coid).dry_run = true)
    ∧ (∀ k, k ≠ "" → chosenClientOrderId (some k) freshId = k)
    ∧ chosenClientOrderId none freshId = "mcp-" ++ freshId := by
  have hb : ∃ oc, builtOrderConfiguration p.order_configuration = some oc := by
    unfold builtOrderConfiguration
    cases hm2 : p.order_configuration.market_market_ioc with
    | some m => exact ⟨_, rfl⟩
    | none =>
        cases hg : p.order_configuration.limit_limit_gtc with
        | some g => exact ⟨_, rfl⟩
        | none =>
            cases hd : p.order_configuration.limit_limit_gtd with
            | some d => exact ⟨_, rfl⟩
            | none =>
                exfalso
                unfold orderConfigOneOf at hv
                rw [hm2, hg, hd] at hv
                simp at hv
  obtain ⟨oc, hoc⟩ := hb
  have hbuild : buildCryptoPayload p freshId =
      some { product_id := p.product_id, side := p.side.value,
             order_configuration := oc,
             client_order_id := chosenClientOrderId p.client_order_id freshId } := by
    unfold buildCryptoPayload
    rw [hoc]
  have hexec : executeCryptoTrade p freshId =
      CryptoResult.dryRun
        { product_id := p.product_id, side := p.side.value,
          order_configuration := oc,
          client_order_id := chosenClientOrderId p.client_order_id freshId } := by
    unfold executeCryptoTrade
    rw [hbuild, hdry]
    rfl
  refine ⟨⟨_, hbuild, hexec, rfl, rfl, rfl⟩, ?_, fun _ _ _ _ => rfl, ?_, rfl⟩
  · intro pl2 hcontra
    rw [hexec] at hcontra
    exact nomatch hcontra
  · intro k hk
    unfold chosenClientOrderId
    simp [hk]

/-- C8, instantiated at a concrete valid dry-run request. -/
theorem c8_dry_run_no_transmission_witness :
    (orderConfigOneOf sampleCryptoParams.order_configuration = true
      ∧ sampleCryptoParams.dry_run = true)
    ∧ ((∃ pl, buildCryptoPayload sampleCryptoParams "f123" = some pl
          ∧ executeCryptoTrade sampleCryptoParams "f123" = CryptoResult.dryRun pl
          ∧ pl.client_order_id =
              chosenClientOrderId sampleCryptoParams.client_order_id "f123"
          ∧ pl.product_id = sampleCryptoParams.product_id
          ∧ pl.side = sampleCryptoParams.side.value)
        ∧ (∀ pl2, executeCryptoTrade sampleCryptoParams "f123"
              ≠ CryptoResult.submitted pl2)
        ∧ (∀ pid side cfg coid,
            (mkExecuteCryptoTradeParamsDefault pid side cfg coid).dry_run = true)
        ∧ (∀ k, k ≠ "" → chosenClientOrderId (some k) "f123" = k)
        ∧ chosenClientOrderId none "f123" = "mcp-" ++ "f123") :=
  ⟨⟨rfl, rfl⟩, c8_dry_run_no_transmission sampleCryptoParams "f123" rfl rfl⟩

/-!  ## Claim C2: session validity is boundary-exact  -/

/-- C2. For every cached session (a truthy token and a recorded login time
`lt`) and every current time `now`: the session is valid iff `now` is
strictly before `nextResetAfter lt`; and `nextResetAfter lt` is exactly the
next 05:00 wall-clock boundary strictly after `lt` — it lies strictly after
`lt`, it is a 05:00 instant, and it is the least such instant, so a session
acquired at 04:59:59 is already invalid at 05:00:00 the same day. -/
theorem c2_session_validity_boundary (tok : PyVal) (lt now : Nat)
    (htok : truthy tok = true) :
    (sessionValid { access_token := tok, login_time := some lt } now = true
      ↔ now < nextResetAfter lt)
    ∧ lt < nextResetAfter lt
    ∧ nextResetAfter lt % 86400 = 5 * 3600
    ∧ (∀ b, b % 86400 = 5 * 3600 → lt < b → nextResetAfter lt ≤ b) := by
  refine ⟨?_, ?_, ?_, ?_⟩
  · simp [sessionValid, htok]
  · unfold nextResetAfter fiveAmOn secondsPerDay
    split <;> omega
  · unfold nextResetAfter fiveAmOn secondsPerDay
    split <;> omega
  · intro b hb hlt
    unfold nextResetAfter fiveAmOn secondsPerDay
    split <;> omega

/-- C2, instantiated: a session acquired at 04:59:59 (second 17999 of day 0)
with a truthy token; the reset boundary is 05:00:00 (second 18000), valid
strictly before it and invalid from it on. -/
theorem c2_session_validity_boundary_witness :
    truthy (PyVal.pstr "jwt") = true
    ∧ ((sessionValid { access_token := PyVal.pstr "jwt", login_time := some 17999 } 18000 = true
          ↔ 18000 < nextResetAfter 17999)
        ∧ 17999 < nextResetAfter 17999
        ∧ nextResetAfter 17999 % 86400 = 5 * 3600
        ∧ (∀ b, b % 86400 = 5 * 3600 → 17999 < b → nextResetAfter 17999 ≤ b)) :=
  ⟨rfl, c2_session_validity_boundary (PyVal.pstr "jwt") 17999 18000 rfl⟩

end BrokerBuddy
